import Mathlib

/-!
Verification development for the SceneManager rendering core
(SceneManager.cpp of the CS330 final-project milestone repository).

The C++ class is embedded shallowly:

* the texture registry, the material table and the shader-uniform sink are
  modelled as explicit state records over exact rationals, with each member
  function of `SceneManager` translated to a state-passing Lean function of
  the same name;
* the long `RenderScene` draw script is transcribed as a list of render
  operations (`renderSceneOps`) built from the same constants and arithmetic
  as the source, including the loops;
* the model-matrix construction and the trigonometric branch-tip rule are
  modelled over the reals (`buildModelView`, `tipZ`), since the source uses
  floating-point trigonometry there; numeric facts about them are settled
  with Taylor-series bounds on sin and cos.

The possibility that `m_pShaderManager` is null is modelled by making the
shader-uniform sink an `Option` field; a member function that dereferences
the pointer without a guard returns `none` ("crash") when the field is
`none`, while a guarded function skips the write and succeeds.
-/

namespace SceneMgr

abbrev V3 := ℚ × ℚ × ℚ
abbrev V4 := ℚ × ℚ × ℚ × ℚ

/-- One entry of the texture registry: `m_textureIDs[i]` holds a string tag
and the OpenGL texture handle (source struct `TEXTURE_ID`). -/
structure TEXTURE_ENTRY where
  tag : String
  ID : Nat
  deriving DecidableEq, Repr

/-- A Phong material preset (source struct `OBJECT_MATERIAL`):
tag, diffuse color, specular color, shininess exponent. -/
structure OBJECT_MATERIAL where
  tag : String
  diffuseColor : V3
  specularColor : V3
  shininess : ℚ
  deriving DecidableEq, Repr

/-- `m_objectMaterials.push_back(m)`: appends a preset to the material list. -/
def definePreset (mats : List OBJECT_MATERIAL) (m : OBJECT_MATERIAL) :
    List OBJECT_MATERIAL :=
  mats ++ [m]

/-- `SceneManager::FindMaterial` (SceneManager.cpp lines 186-197): linear
scan of `m_objectMaterials`, returning the first entry whose tag matches;
the C++ bool-plus-out-parameter is modelled as an `Option`. -/
def FindMaterial : List OBJECT_MATERIAL → String → Option OBJECT_MATERIAL
  | [], _ => none
  | m :: rest, t => if m.tag = t then some m else FindMaterial rest t

/-- `SceneManager::FindTextureID` (lines 154-162): linear scan of the
registry; returns the GL handle of the first entry with the tag, or the
sentinel -1 when no entry matches. -/
def FindTextureID (texs : List TEXTURE_ENTRY) (t : String) : Int :=
  match texs with
  | [] => -1
  | e :: rest => if e.tag = t then (e.ID : Int) else FindTextureID rest t

/-- Index-tracking loop body of `SceneManager::FindTextureSlot`. -/
def findSlotFrom (texs : List TEXTURE_ENTRY) (t : String) (i : Nat) : Int :=
  match texs with
  | [] => -1
  | e :: rest => if e.tag = t then (i : Int) else findSlotFrom rest t (i + 1)

/-- `SceneManager::FindTextureSlot` (lines 170-178): returns the registry
index (texture-unit number) of the first entry with the tag, or -1. -/
def FindTextureSlot (texs : List TEXTURE_ENTRY) (t : String) : Int :=
  findSlotFrom texs t 0

/-- Loop body of `SceneManager::BindGLTextures`, carrying the unit index:
iteration `i` activates texture unit `i` and binds `m_textureIDs[i].ID`. -/
def bindLoop (i : Nat) (texs : List TEXTURE_ENTRY) : List (Nat × Nat) :=
  match texs with
  | [] => []
  | e :: rest => (i, e.ID) :: bindLoop (i + 1) rest

/-- `SceneManager::BindGLTextures` (lines 127-134): the sequence of
(active texture unit, bound handle) pairs issued by the loop. -/
def BindGLTextures (texs : List TEXTURE_ENTRY) : List (Nat × Nat) :=
  bindLoop 0 texs

/-- A decoded image as `stbi_load` reports it: dimensions and channel
count.  A file that cannot be decoded is modelled as `none` at the call
site of `CreateGLTexture`. -/
structure Image where
  width : Nat
  height : Nat
  channels : Nat
  deriving DecidableEq, Repr

/-- The texture-registry part of the `SceneManager` state:
`m_textureIDs`/`m_loadedTextures` (the list and its length) plus the next
fresh GL handle that `glGenTextures` would return. -/
structure TexState where
  textureIDs : List TEXTURE_ENTRY
  nextTextureID : Nat
  deriving DecidableEq, Repr

/-- `SceneManager::CreateGLTexture` (lines 63-120).  `image` is the result
of `stbi_load` (`none` = decode failure).  On decode failure the function
logs and returns false without touching any state.  Otherwise
`glGenTextures` allocates a fresh handle, then the pixel upload accepts
only 3- or 4-channel layouts: any other channel count logs and returns
false with the registry untouched; on success the (tag, handle) pair is
appended at index `m_loadedTextures` and the count is incremented. -/
def CreateGLTexture (image : Option Image) (tag : String) (st : TexState) :
    Bool × TexState :=
  match image with
  | none => (false, st)
  | some img =>
    let textureID := st.nextTextureID
    if img.channels = 3 ∨ img.channels = 4 then
      (true, ⟨st.textureIDs ++ [⟨tag, textureID⟩], st.nextTextureID + 1⟩)
    else
      (false, { st with nextTextureID := st.nextTextureID + 1 })

/-- The raw arguments last pushed to the "model" uniform by
`SetTransformations`; their matrix semantics is `buildModelView` below. -/
structure ModelParams where
  scaleXYZ : V3
  xRot : ℚ
  yRot : ℚ
  zRot : ℚ
  positionXYZ : V3
  deriving DecidableEq, Repr

/-- The shader-uniform sink: the named uniform slots the scene core writes
through `m_pShaderManager`.  The constant per-light values written by
`SetupSceneLights` are not inspected by any claim and are summarised by the
`bUseLighting` flag it sets first. -/
structure ShaderUniforms where
  model : ModelParams
  bUseTexture : Bool
  objectColor : V4
  objectTexture : Int
  UVscale : ℚ × ℚ
  materialDiffuseColor : V3
  materialSpecularColor : V3
  materialShininess : ℚ
  bUseLighting : Bool
  deriving DecidableEq, Repr

/-- The `SceneManager` state visible to the uniform-setting members:
`m_pShaderManager` (null modelled as `none`), `m_objectMaterials`,
`m_textureIDs`. -/
structure SMState where
  shader : Option ShaderUniforms
  materials : List OBJECT_MATERIAL
  textures : List TEXTURE_ENTRY
  deriving DecidableEq, Repr

/-- `SceneManager::SetTransformations` (lines 205-221): computes the model
matrix and pushes it if `m_pShaderManager != nullptr`; with a null shader
manager the function returns without writing. -/
def SetTransformations (sc : V3) (rx ry rz : ℚ) (p : V3) (st : SMState) :
    Option SMState :=
  match st.shader with
  | none => some st
  | some sh => some { st with shader := some { sh with model := ⟨sc, rx, ry, rz, p⟩ } }

/-- `SceneManager::SetShaderColor` (lines 228-241): guarded by the null
check; sets `bUseTexture` to false and pushes the RGBA color. -/
def SetShaderColor (r g b a : ℚ) (st : SMState) : Option SMState :=
  match st.shader with
  | none => some st
  | some sh =>
    some { st with shader := some { sh with bUseTexture := false, objectColor := (r, g, b, a) } }

/-- `SceneManager::SetShaderTexture` (lines 248-256): guarded by the null
check; sets `bUseTexture` to true and pushes `FindTextureSlot(tag)` (which
is -1 for an unregistered tag) as the sampler slot. -/
def SetShaderTexture (t : String) (st : SMState) : Option SMState :=
  match st.shader with
  | none => some st
  | some sh =>
    some { st with shader := some { sh with bUseTexture := true,
                                            objectTexture := FindTextureSlot st.textures t } }

/-- `SceneManager::SetTextureUVScale` (lines 263-269): guarded; pushes the
UV tiling factors. -/
def SetTextureUVScale (u v : ℚ) (st : SMState) : Option SMState :=
  match st.shader with
  | none => some st
  | some sh => some { st with shader := some { sh with UVscale := (u, v) } }

/-- `SceneManager::SetShaderMaterial` (lines 277-286): looks the tag up
first; when found it pushes the three material uniforms through
`m_pShaderManager` with no null guard (crash on null, modelled as `none`);
when not found it returns without touching anything. -/
def SetShaderMaterial (t : String) (st : SMState) : Option SMState :=
  match FindMaterial st.materials t with
  | some m =>
    match st.shader with
    | none => none
    | some sh =>
      some { st with shader := some { sh with materialDiffuseColor := m.diffuseColor,
                                              materialSpecularColor := m.specularColor,
                                              materialShininess := m.shininess } }
  | none => some st

/-- `SceneManager::SetupSceneLights` (lines 449-499): its first statement
dereferences `m_pShaderManager` with no null guard to enable lighting,
followed by the constant directional/point-light writes (values not
inspected by any claim). -/
def SetupSceneLights (st : SMState) : Option SMState :=
  match st.shader with
  | none => none
  | some sh => some { st with shader := some { sh with bUseLighting := true } }

/-- The 17 presets pushed by `SceneManager::DefineObjectMaterials`
(lines 294-434), in push_back order with the source's exact values. -/
def sceneMaterialList : List OBJECT_MATERIAL :=
  [ ⟨"grayMatte", (0.45, 0.45, 0.45), (0.1, 0.1, 0.1), 2⟩,
    ⟨"ceramic", (0.95, 0.93, 0.90), (0.20, 0.20, 0.19), 12⟩,
    ⟨"wood", (0.6, 0.4, 0.2), (0.15, 0.1, 0.05), 8⟩,
    ⟨"woodie", (0.55, 0.35, 0.18), (0.2, 0.15, 0.08), 12⟩,
    ⟨"lightWood", (0.75, 0.65, 0.50), (0.1, 0.1, 0.08), 4⟩,
    ⟨"darkMetal", (0.08, 0.08, 0.08), (0.6, 0.6, 0.6), 32⟩,
    ⟨"counter", (0.82, 0.78, 0.72), (0.92, 0.90, 0.88), 128⟩,
    ⟨"tableTop", (0.80, 0.76, 0.70), (0.98, 0.97, 0.95), 256⟩,
    ⟨"metal", (0.5, 0.5, 0.5), (0.6, 0.6, 0.6), 24⟩,
    ⟨"foliage", (0.16, 0.46, 0.14), (0.12, 0.22, 0.10), 14⟩,
    ⟨"bark", (0.30, 0.24, 0.18), (0.05, 0.04, 0.03), 2⟩,
    ⟨"soil", (0.25, 0.18, 0.10), (0.02, 0.02, 0.02), 1⟩,
    ⟨"napkin", (0.95, 0.95, 0.93), (0.10, 0.10, 0.10), 4⟩,
    ⟨"wall", (0.95, 0.95, 0.90), (0.02, 0.02, 0.02), 1⟩,
    ⟨"cabinetWhite", (0.78, 0.78, 0.77), (0.12, 0.12, 0.11), 12⟩,
    ⟨"stainless", (0.40, 0.40, 0.41), (0.55, 0.55, 0.56), 48⟩,
    ⟨"fridgeHandle", (0.14, 0.14, 0.14), (0.35, 0.35, 0.35), 32⟩ ]

/-- `SceneManager::DefineObjectMaterials`: the material table that results
from the seventeen successive push_back calls. -/
def DefineObjectMaterials : List OBJECT_MATERIAL :=
  sceneMaterialList.foldl definePreset []

/-- One operation of the `RenderScene` draw script: a uniform push or a
primitive draw request. -/
inductive RenderOp where
  | setTransform (scale : V3) (rx ry rz : ℚ) (pos : V3)
  | setColor (r g b a : ℚ)
  | setTexture (tag : String)
  | setUV (u v : ℚ)
  | setMaterial (tag : String)
  | drawBox
  | drawPlane
  | drawCylinder (topCap bottomCap sides : Bool)
  | drawTaperedCylinder
  | drawSphere
  | drawTorus
  deriving DecidableEq, Repr

namespace Scene

/-! Constants of `SceneManager::RenderScene` (lines 550-1494), with the
source's derivations kept symbolic so every dependent value below is
computed by the same arithmetic as the C++ code. -/

def upperTableY : ℚ := 1
def lowerShelfY : ℚ := -0.5
def topThickness : ℚ := 1

-- background block
def bgZ : ℚ := -11
def floorY : ℚ := -4
def ceilY : ℚ := 16
def wallH : ℚ := ceilY - floorY
def wallW : ℚ := 60
def cabZ : ℚ := bgZ + 0.35
def cabW : ℚ := 5.5
def cabX : ℚ := -9.5
def fridgeW : ℚ := 5.2
def fridgeX : ℚ := -1.0
def fridgeBotY : ℚ := floorY + 0.3
def fridgeH : ℚ := 13.5
def fridgeTopY : ℚ := fridgeBotY + fridgeH
def upCabH : ℚ := 2.3
def upCabY : ℚ := fridgeTopY + upCabH * 0.5
def fridgeFaceZ : ℚ := cabZ + 0.55
def fridgeDepth : ℚ := 1.2

-- flower pot / bonsai block
def potRadius : ℚ := 1.6
def potCenterX : ℚ := 0
def potCenterZ : ℚ := -3
def potBaseY : ℚ := upperTableY + topThickness
def baseH : ℚ := 1
def baseR : ℚ := potRadius * 0.92
def upperH : ℚ := 1.8
def potTopY : ℚ := potBaseY + baseH + upperH

/-- Pot-rim anchor of the trunk chain: base of segment 1, as hardcoded at
line 925 (`s0 = (0.00, potTopY+0.05)`). -/
def potRimJoint : ℚ × ℚ := (potCenterX + 0, potTopY + 0.05)

/-- First trunk joint as hardcoded at line 931 (`s1 = (+0.15, potTopY+0.47)`). -/
def trunkJoint1 : ℚ × ℚ := (potCenterX + 0.15, potTopY + 0.47)

/-- Second trunk joint as hardcoded at line 943 (`s2 = (+0.34, potTopY+1.19)`). -/
def trunkJoint2 : ℚ × ℚ := (potCenterX + 0.34, potTopY + 1.19)

/-- Third trunk joint as hardcoded at line 955 (`s3 = (+0.24, potTopY+1.93)`). -/
def trunkJoint3 : ℚ × ℚ := (potCenterX + 0.24, potTopY + 1.93)

/-- Base of the left branch cylinder as hardcoded at line 968: the left
branch is rooted at the first trunk joint (the comment at line 965 reads
"LEFT BRANCH  s1=(+0.15, potTopY+0.47)  Z=+55"). -/
def leftBranchOrigin : ℚ × ℚ := trunkJoint1

/-- Base of the right branch cylinder as hardcoded at line 981: the right
branch is rooted at the second trunk joint (comment at line 978:
"RIGHT BRANCH  s2=(+0.34, potTopY+1.19)  Z=-50"). -/
def rightBranchOrigin : ℚ × ℚ := trunkJoint2

/-- Anchor of the 7-sphere left leaf cluster (lines 1070-1071):
`lcX = potCenterX - 1.00`, `lcY = potTopY + 1.27`. -/
def leftClusterAnchor : ℚ × ℚ := (potCenterX - 1.00, potTopY + 1.27)

/-- Anchor of the 7-sphere right leaf cluster (lines 1127-1128):
`rcX = potCenterX + 1.26`, `rcY = potTopY + 1.96`. -/
def rightClusterAnchor : ℚ × ℚ := (potCenterX + 1.26, potTopY + 1.96)

-- foliage tonal tiers (lines 999-1001)
def cHr : ℚ := 0.19
def cHg : ℚ := 0.50
def cHb : ℚ := 0.15
def cMr : ℚ := 0.14
def cMg : ℚ := 0.40
def cMb : ℚ := 0.11
def cSr : ℚ := 0.09
def cSg : ℚ := 0.28
def cSb : ℚ := 0.08

-- candle mug block
def mugRadius : ℚ := 0.65
def mugHeight : ℚ := 1.275
def mugX : ℚ := -4.0
def mugZ : ℚ := 4.0
def mugBaseY : ℚ := lowerShelfY

-- coasters / wire holder block
def coasterRadius : ℚ := 1.1
def coasterThickness : ℚ := 0.15
def coasterGap : ℚ := 0.06
def numCoasters : ℕ := 8
def coasterX : ℚ := -1.5
def coasterZ : ℚ := 4.5
def coasterBaseY : ℚ := lowerShelfY
def stackBaseY : ℚ := coasterBaseY + 0.10
def stackHeight : ℚ := (numCoasters : ℚ) * (coasterThickness + coasterGap)
def wireR : ℚ := 0.045
def wireH : ℚ := stackHeight
def legSpacing : ℚ := 0.30
def edgeDist : ℚ := coasterRadius + 0.03
def footY : ℚ := coasterBaseY + wireR

-- napkin holder block
def nhX : ℚ := 2.0
def nhZ : ℚ := 4.5
def nhBaseY : ℚ := lowerShelfY
def panelWidth : ℚ := 3.4
def panelRectH : ℚ := 2.0
def archRadius : ℚ := panelWidth / 2
def panelThk : ℚ := 0.2
def slotGap : ℚ := 0.75
def frontZ : ℚ := nhZ + slotGap / 2 + panelThk / 2
def backZ : ℚ := nhZ - slotGap / 2 - panelThk / 2
def totalDepth : ℚ := slotGap + panelThk * 2
def totalWoodH : ℚ := panelRectH + archRadius
def napkinH : ℚ := totalWoodH * 1.0
def napkinCount : ℕ := 12
def totalSlotZ : ℚ := slotGap * 0.88
def napkinThk : ℚ := totalSlotZ / (napkinCount : ℚ)
def startZ : ℚ := nhZ - totalSlotZ / 2 + napkinThk / 2

open RenderOp in
/-- Background architecture block of `RenderScene` (lines 582-820): back
wall, floor and ceiling strips, pantry column, fridge surround, fridge
body, right wall and switch plate, in source draw order. -/
def backgroundOps : List RenderOp :=
  [ -- back wall
    setTransform (wallW, wallH, 0.3) 0 0 0 (0, floorY + wallH * 0.5, bgZ),
    setTexture "wall", setUV 1 1, setMaterial "wall", drawBox,
    -- dark hardwood floor strip
    setTransform (wallW, 0.3, 6.0) 0 0 0 (0, floorY + 0.15, bgZ + 3.0),
    setColor 0.16 0.11 0.07 1.0, setMaterial "bark", drawBox,
    -- ceiling strip
    setTransform (wallW, 1.5, 4.0) 0 0 0 (0, ceilY - 0.75, bgZ + 2.0),
    setTexture "wall", setUV 1 1, setMaterial "wall", drawBox,
    -- upper pantry body
    setTransform (cabW, 7.5, 0.7) 0 0 0 (cabX, 8.5, cabZ),
    setColor 0.78 0.78 0.77 1.0, setMaterial "cabinetWhite", drawBox,
    -- lower pantry body
    setTransform (cabW, 7.0, 0.7) 0 0 0 (cabX, 0.5, cabZ),
    setColor 0.78 0.78 0.77 1.0, setMaterial "cabinetWhite", drawBox,
    -- upper door inset panel
    setTransform (cabW * 0.80, 6.8, 0.12) 0 0 0 (cabX, 8.5, cabZ + 0.41),
    setColor 0.72 0.72 0.71 1.0, setMaterial "cabinetWhite", drawBox,
    -- lower door inset panel
    setTransform (cabW * 0.80, 6.3, 0.12) 0 0 0 (cabX, 0.5, cabZ + 0.41),
    setColor 0.72 0.72 0.71 1.0, setMaterial "cabinetWhite", drawBox,
    -- mid-rail between the pantry doors
    setTransform (cabW, 0.25, 0.75) 0 0 0 (cabX, 4.2, cabZ + 0.05),
    setColor 0.78 0.78 0.77 1.0, setMaterial "cabinetWhite", drawBox ]
  ++ -- pantry handle loop, d = 0 then d = 1 (handleY 8.5 then 0.5)
  (([0, 1] : List ℕ).flatMap fun d =>
    [ setTransform (0.12, 1.2, 0.12) 0 0 0
        (cabX + 1.8, if d = 0 then 8.5 else 0.5, cabZ + 0.54),
      setColor 0.55 0.55 0.55 1.0, setMaterial "metal",
      drawCylinder false false true ])
  ++
  [ -- left surround pilaster
    setTransform (1.2, fridgeH + 2.3, 0.9) 0 0 0
      (fridgeX - fridgeW * 0.5 - 0.6, fridgeBotY + (fridgeH + 2.3) * 0.5, cabZ - 0.05),
    setColor 0.78 0.78 0.77 1.0, setMaterial "cabinetWhite", drawBox,
    -- right surround pilaster
    setTransform (1.2, fridgeH + 2.3, 0.9) 0 0 0
      (fridgeX + fridgeW * 0.5 + 0.6, fridgeBotY + (fridgeH + 2.3) * 0.5, cabZ - 0.05),
    setColor 0.78 0.78 0.77 1.0, setMaterial "cabinetWhite", drawBox,
    -- upper cabinet box above the fridge
    setTransform (fridgeW + 2.4, upCabH, 0.85) 0 0 0 (fridgeX, upCabY, cabZ),
    setColor 0.78 0.78 0.77 1.0, setMaterial "cabinetWhite", drawBox,
    -- left upper cabinet door inset
    setTransform ((fridgeW + 2.4) * 0.46, upCabH * 0.82, 0.12) 0 0 0
      (fridgeX - (fridgeW + 2.4) * 0.25, upCabY, cabZ + 0.48),
    setColor 0.72 0.72 0.71 1.0, setMaterial "cabinetWhite", drawBox,
    -- right upper cabinet door inset
    setTransform ((fridgeW + 2.4) * 0.46, upCabH * 0.82, 0.12) 0 0 0
      (fridgeX + (fridgeW + 2.4) * 0.25, upCabY, cabZ + 0.48),
    setColor 0.72 0.72 0.71 1.0, setMaterial "cabinetWhite", drawBox ]
  ++ -- upper cabinet handle loop, d = -1 then d = 1
  (([-1, 1] : List ℤ).flatMap fun d =>
    [ setTransform (0.1, 0.9, 0.1) 0 0 0
        (fridgeX + (d : ℚ) * 0.3, upCabY - 0.5, cabZ + 0.61),
      setColor 0.55 0.55 0.55 1.0, setMaterial "metal",
      drawCylinder false false true ])
  ++
  [ -- main stainless fridge body
    setTransform (fridgeW, fridgeH, fridgeDepth) 0 0 0
      (fridgeX, fridgeBotY + fridgeH * 0.5, fridgeFaceZ - fridgeDepth * 0.5),
    setColor 0.40 0.40 0.41 1.0, setMaterial "stainless", drawBox,
    -- vertical door seam
    setTransform (0.06, fridgeH * 0.72, fridgeDepth + 0.02) 0 0 0
      (fridgeX, fridgeBotY + fridgeH * 0.26 + fridgeH * 0.72 * 0.5, fridgeFaceZ),
    setColor 0.22 0.22 0.23 1.0, setMaterial "darkMetal", drawBox,
    -- horizontal seam
    setTransform (fridgeW + 0.05, 0.08, fridgeDepth + 0.02) 0 0 0
      (fridgeX, fridgeBotY + fridgeH * 0.26, fridgeFaceZ),
    setColor 0.20 0.20 0.21 1.0, setMaterial "darkMetal", drawBox,
    -- left door handle
    setTransform (0.14, 3.8, 0.14) 0 0 0
      (fridgeX - 0.55, fridgeBotY + fridgeH * 0.62, fridgeFaceZ + 0.22),
    setColor 0.14 0.14 0.14 1.0, setMaterial "fridgeHandle", drawBox,
    -- right door handle
    setTransform (0.14, 3.8, 0.14) 0 0 0
      (fridgeX + 0.55, fridgeBotY + fridgeH * 0.62, fridgeFaceZ + 0.22),
    setColor 0.14 0.14 0.14 1.0, setMaterial "fridgeHandle", drawBox,
    -- freezer drawer handle
    setTransform (fridgeW * 0.65, 0.18, 0.18) 0 0 0
      (fridgeX, fridgeBotY + fridgeH * 0.13, fridgeFaceZ + 0.22),
    setColor 0.14 0.14 0.14 1.0, setMaterial "fridgeHandle", drawBox ]
  ++ -- fridge feet loop, f = -1 then f = 1
  (([-1, 1] : List ℤ).flatMap fun f =>
    [ setTransform (0.25, 0.28, 0.25) 0 0 0
        (fridgeX + (f : ℚ) * (fridgeW * 0.38), fridgeBotY - 0.14, fridgeFaceZ - 0.4),
      setColor 0.10 0.10 0.10 1.0, setMaterial "darkMetal",
      drawCylinder true true true ])
  ++
  [ -- right wall section
    setTransform (8.0, wallH, 0.3) 0 0 0 (8.0, floorY + wallH * 0.5, bgZ),
    setTexture "wall", setUV 1 1, setMaterial "wall", drawBox,
    -- light-switch plate
    setTransform (0.55, 0.85, 0.12) 0 0 0 (6.8, 2.8, bgZ + 0.22),
    setColor 0.80 0.80 0.79 1.0, setMaterial "cabinetWhite", drawBox ]

open RenderOp in
/-- Upper counter slab, front face panel and lower shelf (lines 823-857). -/
def counterOps : List RenderOp :=
  [ -- top face of the counter slab
    setTransform (20.0, topThickness, 8.0) 0 0 0
      (0, upperTableY + topThickness * 0.5, -3.0),
    setTexture "toptable", setUV 1 1, setMaterial "tableTop", drawBox,
    -- vertical front face panel
    setTransform (20.0, upperTableY - lowerShelfY, 0.8) 0 0 0
      (0, (upperTableY + lowerShelfY) / 2, 0),
    setColor 0.72 0.72 0.70 1.0, setMaterial "counter", drawBox,
    -- lower shelf plane
    setTransform (20.0, 1.0, 6.0) 0 0 0 (0, lowerShelfY, 3.0),
    setColor 0.55 0.53 0.50 1.0, setTexture "bottomtable", setUV 1 1,
    setMaterial "counter", drawPlane ]

open RenderOp in
/-- Flower pot, soil, S-curve trunk, branches and twigs (lines 865-989). -/
def potTrunkOps : List RenderOp :=
  [ -- bottom pot cylinder
    setTransform (baseR, baseH, baseR) 0 0 0 (potCenterX, potBaseY, potCenterZ),
    setTexture "pot", setUV 1 1, setMaterial "grayMatte", drawCylinder true true true,
    -- upper pot cylinder
    setTransform (potRadius, upperH, potRadius) 0 0 0
      (potCenterX, potBaseY + baseH, potCenterZ),
    setTexture "pot", setUV 1 1, setMaterial "grayMatte", drawCylinder true true true,
    -- soil disk
    setTransform (potRadius * 0.90, 0.05, potRadius * 0.90) 0 0 0
      (potCenterX, potTopY, potCenterZ),
    setColor 0.25 0.18 0.10 1.0, setMaterial "soil", drawCylinder true true true,
    -- bark color and material for the whole trunk
    setColor 0.20 0.17 0.14 1.0, setMaterial "bark",
    -- segment 1: Z = -20, h = 0.45, rooted at the pot rim
    setTransform (0.22, 0.45, 0.22) 0 0 (-20)
      (potRimJoint.1, potRimJoint.2, potCenterZ),
    drawCylinder false false true,
    -- joint sphere at s1
    setTransform (0.21, 0.21, 0.21) 0 0 0 (trunkJoint1.1, trunkJoint1.2, potCenterZ),
    drawSphere,
    -- segment 2: Z = -15, h = 0.75, rooted at s1
    setTransform (0.19, 0.75, 0.19) 0 0 (-15) (trunkJoint1.1, trunkJoint1.2, potCenterZ),
    drawCylinder false false true,
    -- joint sphere at s2
    setTransform (0.19, 0.19, 0.19) 0 0 0 (trunkJoint2.1, trunkJoint2.2, potCenterZ),
    drawSphere,
    -- segment 3: Z = +8, h = 0.75, rooted at s2
    setTransform (0.16, 0.75, 0.16) 0 0 8 (trunkJoint2.1, trunkJoint2.2, potCenterZ),
    drawCylinder false false true,
    -- joint sphere at s3
    setTransform (0.16, 0.16, 0.16) 0 0 0 (trunkJoint3.1, trunkJoint3.2, potCenterZ),
    drawSphere,
    -- segment 4: Z = +22, h = 0.75, rooted at s3
    setTransform (0.12, 0.75, 0.12) 0 0 22 (trunkJoint3.1, trunkJoint3.2, potCenterZ),
    drawCylinder false false true,
    -- left branch: Z = +55, h = 1.4, rooted at the first trunk joint
    setTransform (0.11, 1.40, 0.11) 0 0 55
      (leftBranchOrigin.1, leftBranchOrigin.2, potCenterZ),
    drawCylinder false false true,
    -- left sub-twig: Z = +42, h = 0.65
    setTransform (0.07, 0.65, 0.07) 0 0 42
      (potCenterX - 0.54, potTopY + 0.95, potCenterZ),
    drawCylinder false false true,
    -- right branch: Z = -50, h = 1.2, rooted at the second trunk joint
    setTransform (0.10, 1.20, 0.10) 0 0 (-50)
      (rightBranchOrigin.1, rightBranchOrigin.2, potCenterZ),
    drawCylinder false false true,
    -- right sub-twig: Z = -35, h = 0.6
    setTransform (0.06, 0.60, 0.06) 0 0 (-35)
      (potCenterX + 0.89, potTopY + 1.65, potCenterZ),
    drawCylinder false false true ]

open RenderOp in
/-- The three leaf clusters (lines 998-1178): 8-sphere crown, 7-sphere
left cluster, 7-sphere right cluster, each sphere with its hand-tuned
offset from the cluster anchor, scale and tonal tint. -/
def foliageOps : List RenderOp :=
  [ setMaterial "foliage",
    -- crown, anchored past the fourth trunk joint
    setTransform (0.65, 0.55, 0.62) 0 0 0
      (potCenterX - 0.04, potTopY + 3.12, potCenterZ),
    setColor cMr cMg cMb 1.0, drawSphere,
    setTransform (0.48, 0.42, 0.46) 0 0 0
      (potCenterX - 0.04 - 0.08, potTopY + 3.12 + 0.52, potCenterZ),
    setColor cHr cHg cHb 1.0, drawSphere,
    setTransform (0.52, 0.44, 0.48) 0 0 0
      (potCenterX - 0.04 + 0.58, potTopY + 3.12 + 0.12, potCenterZ),
    setColor cHr (cHg + 0.02) cHb 1.0, drawSphere,
    setTransform (0.50, 0.42, 0.46) 0 0 0
      (potCenterX - 0.04 - 0.55, potTopY + 3.12 + 0.08, potCenterZ),
    setColor cMr (cMg + 0.02) cMb 1.0, drawSphere,
    setTransform (0.46, 0.40, 0.44) 0 0 0
      (potCenterX - 0.04 + 0.10, potTopY + 3.12 - 0.06, potCenterZ + 0.50),
    setColor (cHr + 0.01) (cHg + 0.03) cHb 1.0, drawSphere,
    setTransform (0.44, 0.38, 0.42) 0 0 0
      (potCenterX - 0.04 + 0.05, potTopY + 3.12 + 0.04, potCenterZ - 0.48),
    setColor cSr cSg cSb 1.0, drawSphere,
    setTransform (0.55, 0.38, 0.52) 0 0 0
      (potCenterX - 0.04 + 0.06, potTopY + 3.12 - 0.42, potCenterZ),
    setColor cSr (cSg + 0.02) cSb 1.0, drawSphere,
    setTransform (0.38, 0.33, 0.36) 0 0 0
      (potCenterX - 0.04 + 0.44, potTopY + 3.12 + 0.48, potCenterZ + 0.16),
    setColor (cHr + 0.02) (cHg + 0.04) (cHb + 0.01) 1.0, drawSphere,
    -- left cluster at the left branch tip
    setTransform (0.40, 0.34, 0.38) 0 0 0
      (leftClusterAnchor.1, leftClusterAnchor.2, potCenterZ),
    setColor cMr cMg cMb 1.0, drawSphere,
    setTransform (0.30, 0.26, 0.28) 0 0 0
      (leftClusterAnchor.1 - 0.05, leftClusterAnchor.2 + 0.36, potCenterZ),
    setColor (cHr + 0.01) (cHg + 0.03) cHb 1.0, drawSphere,
    setTransform (0.28, 0.24, 0.26) 0 0 0
      (leftClusterAnchor.1 - 0.40, leftClusterAnchor.2 + 0.05, potCenterZ),
    setColor cHr (cHg + 0.02) cHb 1.0, drawSphere,
    setTransform (0.26, 0.22, 0.24) 0 0 0
      (leftClusterAnchor.1 + 0.36, leftClusterAnchor.2 + 0.08, potCenterZ),
    setColor cSr (cSg + 0.02) cSb 1.0, drawSphere,
    setTransform (0.30, 0.25, 0.28) 0 0 0
      (leftClusterAnchor.1 - 0.08, leftClusterAnchor.2 + 0.02, potCenterZ + 0.36),
    setColor cHr (cHg + 0.01) cHb 1.0, drawSphere,
    setTransform (0.34, 0.24, 0.32) 0 0 0
      (leftClusterAnchor.1 - 0.04, leftClusterAnchor.2 - 0.28, potCenterZ),
    setColor cSr cSg cSb 1.0, drawSphere,
    setTransform (0.24, 0.20, 0.22) 0 0 0
      (potCenterX - 0.96, potTopY + 1.45, potCenterZ),
    setColor (cHr + 0.01) (cHg + 0.04) (cHb + 0.01) 1.0, drawSphere,
    -- right cluster at the right branch tip
    setTransform (0.40, 0.34, 0.38) 0 0 0
      (rightClusterAnchor.1, rightClusterAnchor.2, potCenterZ),
    setColor cMr cMg cMb 1.0, drawSphere,
    setTransform (0.30, 0.26, 0.28) 0 0 0
      (rightClusterAnchor.1 + 0.04, rightClusterAnchor.2 + 0.36, potCenterZ),
    setColor (cHr + 0.01) (cHg + 0.03) cHb 1.0, drawSphere,
    setTransform (0.28, 0.24, 0.26) 0 0 0
      (rightClusterAnchor.1 + 0.40, rightClusterAnchor.2 + 0.05, potCenterZ),
    setColor cHr (cHg + 0.02) cHb 1.0, drawSphere,
    setTransform (0.26, 0.22, 0.24) 0 0 0
      (rightClusterAnchor.1 - 0.36, rightClusterAnchor.2 + 0.08, potCenterZ),
    setColor cSr (cSg + 0.02) cSb 1.0, drawSphere,
    setTransform (0.30, 0.25, 0.28) 0 0 0
      (rightClusterAnchor.1 + 0.06, rightClusterAnchor.2 + 0.02, potCenterZ + 0.36),
    setColor cHr (cHg + 0.01) cHb 1.0, drawSphere,
    setTransform (0.34, 0.24, 0.32) 0 0 0
      (rightClusterAnchor.1 + 0.04, rightClusterAnchor.2 - 0.28, potCenterZ),
    setColor cSr cSg cSb 1.0, drawSphere,
    setTransform (0.24, 0.20, 0.22) 0 0 0
      (potCenterX + 1.22, potTopY + 2.14, potCenterZ),
    setColor (cHr + 0.01) (cHg + 0.04) (cHb + 0.01) 1.0, drawSphere ]

open RenderOp in
/-- Candle mug (lines 1187-1230): body, wax disk, torus handle, label
band. -/
def mugOps : List RenderOp :=
  [ setTransform (mugRadius, mugHeight, mugRadius) 0 0 0 (mugX, mugBaseY, mugZ),
    setColor 0.95 0.93 0.90 1.0, setMaterial "ceramic", drawCylinder true true true,
    setTransform (mugRadius * 0.88, 0.055, mugRadius * 0.88) 0 0 0
      (mugX, mugBaseY + mugHeight - 0.05, mugZ),
    setColor 0.88 0.84 0.72 1.0, setMaterial "ceramic", drawCylinder true true true,
    setTransform (0.42, 0.3, 0.42) 90 0 0
      (mugX - mugRadius, mugBaseY + mugHeight * 0.50, mugZ),
    setColor 0.95 0.93 0.90 1.0, setMaterial "ceramic", drawTorus,
    setTransform (mugRadius + 0.01, mugHeight * 0.25, mugRadius + 0.01) 0 0 0
      (mugX, mugBaseY + mugHeight * 0.15, mugZ),
    setColor 0.88 0.86 0.82 1.0, setMaterial "ceramic", drawCylinder false false true ]

open RenderOp in
/-- Coaster stack and four-arch wire holder (lines 1239-1385), in source
draw order: front, back, left, right arches, then the 8-coaster loop. -/
def coasterOps : List RenderOp :=
  [ -- front arch (+Z): left leg
    setTransform (wireR, wireH, wireR) 0 0 0
      (coasterX - legSpacing, coasterBaseY, coasterZ + edgeDist),
    setColor 0.08 0.08 0.08 1.0, setMaterial "darkMetal", drawCylinder false false true,
    -- front arch left foot bar
    setTransform (wireR, edgeDist, wireR) (-90) 0 0
      (coasterX - legSpacing, footY, coasterZ + edgeDist),
    drawCylinder false false true,
    -- front arch right leg
    setTransform (wireR, wireH, wireR) 0 0 0
      (coasterX + legSpacing, coasterBaseY, coasterZ + edgeDist),
    drawCylinder false false true,
    -- front arch right foot bar
    setTransform (wireR, edgeDist, wireR) (-90) 0 0
      (coasterX + legSpacing, footY, coasterZ + edgeDist),
    drawCylinder false false true,
    -- front arch top U-curve
    setTransform (legSpacing + wireR, wireR * 1.5, wireR) 0 0 0
      (coasterX, coasterBaseY + wireH, coasterZ + edgeDist),
    drawSphere,
    -- back arch (-Z): left leg
    setTransform (wireR, wireH, wireR) 0 0 0
      (coasterX - legSpacing, coasterBaseY, coasterZ - edgeDist),
    setColor 0.08 0.08 0.08 1.0, setMaterial "darkMetal", drawCylinder false false true,
    -- back arch left foot
    setTransform (wireR, edgeDist, wireR) 90 0 0
      (coasterX - legSpacing, footY, coasterZ - edgeDist),
    drawCylinder false false true,
    -- back arch right leg
    setTransform (wireR, wireH, wireR) 0 0 0
      (coasterX + legSpacing, coasterBaseY, coasterZ - edgeDist),
    drawCylinder false false true,
    -- back arch right foot
    setTransform (wireR, edgeDist, wireR) 90 0 0
      (coasterX + legSpacing, footY, coasterZ - edgeDist),
    drawCylinder false false true,
    -- back arch top U-curve
    setTransform (legSpacing + wireR, wireR * 1.5, wireR) 0 0 0
      (coasterX, coasterBaseY + wireH, coasterZ - edgeDist),
    drawSphere,
    -- left arch (-X): first leg
    setTransform (wireR, wireH, wireR) 0 0 0
      (coasterX - edgeDist, coasterBaseY, coasterZ - legSpacing),
    setColor 0.08 0.08 0.08 1.0, setMaterial "darkMetal", drawCylinder false false true,
    -- left arch first foot
    setTransform (wireR, edgeDist, wireR) 0 0 (-90)
      (coasterX - edgeDist, footY, coasterZ - legSpacing),
    drawCylinder false false true,
    -- left arch other leg
    setTransform (wireR, wireH, wireR) 0 0 0
      (coasterX - edgeDist, coasterBaseY, coasterZ + legSpacing),
    drawCylinder false false true,
    -- left arch other foot
    setTransform (wireR, edgeDist, wireR) 0 0 (-90)
      (coasterX - edgeDist, footY, coasterZ + legSpacing),
    drawCylinder false false true,
    -- left arch top U-curve
    setTransform (wireR, wireR * 1.5, legSpacing + wireR) 0 0 0
      (coasterX - edgeDist, coasterBaseY + wireH, coasterZ),
    drawSphere,
    -- right arch (+X): first leg
    setTransform (wireR, wireH, wireR) 0 0 0
      (coasterX + edgeDist, coasterBaseY, coasterZ - legSpacing),
    setColor 0.08 0.08 0.08 1.0, setMaterial "darkMetal", drawCylinder false false true,
    -- right arch first foot
    setTransform (wireR, edgeDist, wireR) 0 0 90
      (coasterX + edgeDist, footY, coasterZ - legSpacing),
    drawCylinder false false true,
    -- right arch other leg
    setTransform (wireR, wireH, wireR) 0 0 0
      (coasterX + edgeDist, coasterBaseY, coasterZ + legSpacing),
    drawCylinder false false true,
    -- right arch other foot
    setTransform (wireR, edgeDist, wireR) 0 0 90
      (coasterX + edgeDist, footY, coasterZ + legSpacing),
    drawCylinder false false true,
    -- right arch top U-curve
    setTransform (wireR, wireR * 1.5, legSpacing + wireR) 0 0 0
      (coasterX + edgeDist, coasterBaseY + wireH, coasterZ),
    drawSphere ]
  ++ -- coaster stack loop, i = 0 .. 7
  ((List.range numCoasters).flatMap fun i =>
    [ setTransform (coasterRadius, coasterThickness, coasterRadius) 0 0 0
        (coasterX, stackBaseY + (i : ℚ) * (coasterThickness + coasterGap), coasterZ),
      setColor (if i % 2 = 0 then 0.90 else 0.87)
        ((if i % 2 = 0 then 0.90 else 0.87) - 0.01)
        ((if i % 2 = 0 then 0.90 else 0.87) - 0.04) 1.0,
      setTexture "coaster", setUV 1 1, setMaterial "lightWood",
      drawCylinder true true true ])

open RenderOp in
/-- Napkin holder (lines 1399-1488): two panels with arch tops, base
slab, and the 12-napkin loop. -/
def napkinOps : List RenderOp :=
  [ -- front panel, rectangular lower portion
    setTransform (panelWidth, panelRectH, panelThk) 0 0 0
      (nhX, nhBaseY + panelRectH / 2, frontZ),
    setColor 0.55 0.35 0.15 1.0, setTexture "wood", setUV 1 1,
    setMaterial "wood", drawBox,
    -- front arch top
    setTransform (archRadius, panelThk, archRadius) (-90) 0 0
      (nhX, nhBaseY + panelRectH, frontZ + panelThk / 2),
    setColor 0.55 0.35 0.15 1.0, setTexture "woodie", setUV 1 1,
    setMaterial "woodie", drawCylinder true true true,
    -- back panel, rectangular lower portion
    setTransform (panelWidth, panelRectH, panelThk) 0 0 0
      (nhX, nhBaseY + panelRectH / 2, backZ),
    setColor 0.55 0.35 0.15 1.0, setTexture "wood", setUV 1 1,
    setMaterial "wood", drawBox,
    -- back arch top
    setTransform (archRadius, panelThk, archRadius) 90 0 0
      (nhX, nhBaseY + panelRectH, backZ - panelThk / 2),
    setColor 0.55 0.35 0.15 1.0, setTexture "wood", setUV 1 1,
    setMaterial "wood", drawCylinder true true true,
    -- base slab
    setTransform (panelWidth, panelThk, totalDepth) 0 0 0
      (nhX, nhBaseY + panelThk / 2, nhZ),
    setColor 0.52 0.32 0.13 1.0, setMaterial "wood", drawBox ]
  ++ -- napkin loop, i = 0 .. 11
  ((List.range napkinCount).flatMap fun i =>
    [ setTransform (panelWidth * 1.17,
        napkinH * (if i % 2 = 0 then 1.0 else 0.97), napkinThk * 0.92) 0 0 0
        (nhX,
         nhBaseY + (napkinH * (if i % 2 = 0 then 1.0 else 0.97)) / 2 + panelThk,
         startZ + (i : ℚ) * napkinThk),
      setColor (0.94 + ((i % 3 : ℕ) : ℚ) * 0.01) (0.94 + ((i % 3 : ℕ) : ℚ) * 0.01)
        ((0.94 + ((i % 3 : ℕ) : ℚ) * 0.01) * 0.98) 1.0,
      setTexture "napkin", setUV 1 1, setMaterial "napkin", drawBox ])

end Scene

/-- The complete per-frame draw script of `SceneManager::RenderScene`
(lines 550-1494), in source order.  None of these operations touches the
back-face-culling flag, which is handled by the save/disable/restore pair
around the script (see `RenderScene` below). -/
def renderSceneOps : List RenderOp :=
  Scene.backgroundOps ++ Scene.counterOps ++ Scene.potTrunkOps ++
    Scene.foliageOps ++ Scene.mugOps ++ Scene.coasterOps ++ Scene.napkinOps

/-- A full `RenderScene` pass as far as global GL state is concerned:
the saved culling flag, the flag value in force while the script runs,
the script itself, and the flag value after the final conditional
restore. -/
structure FramePass where
  cullSaved : Bool
  cullDuringPass : Bool
  ops : List RenderOp
  cullAfter : Bool
  deriving DecidableEq, Repr

/-- `SceneManager::RenderScene` (lines 550-1494) as a function of the
prior culling-enable state: line 557 saves `glIsEnabled(GL_CULL_FACE)`,
line 558 disables culling for the whole pass, the draw script runs, and
lines 1492-1493 re-enable culling exactly when it was enabled before. -/
def RenderScene (cullEnabled : Bool) : FramePass :=
  { cullSaved := cullEnabled
    cullDuringPass := false
    ops := renderSceneOps
    cullAfter := if cullEnabled then true else false }

/-! Helper lemmas about the registry scans. -/

/-- Pushing presets with `definePreset` starting from `acc` appends them in
order. -/
theorem foldl_definePreset (ds : List OBJECT_MATERIAL) :
    ∀ acc : List OBJECT_MATERIAL, ds.foldl definePreset acc = acc ++ ds := by
  induction ds with
  | nil => intro acc; simp
  | cons d rest ih => intro acc; simp [definePreset, ih]

/-- The slot scan never returns a value below its running index (other
than the -1 sentinel). -/
theorem findSlotFrom_ge (texs : List TEXTURE_ENTRY) (t : String) :
    ∀ k : Nat, findSlotFrom texs t k = -1 ∨ (k : Int) ≤ findSlotFrom texs t k := by
  induction texs with
  | nil => intro k; left; rfl
  | cons e rest ih =>
    intro k
    by_cases h : e.tag = t
    · right; simp [findSlotFrom, h]
    · rcases ih (k + 1) with h1 | h1
      · left; simpa [findSlotFrom, h] using h1
      · right; simp only [findSlotFrom, h, if_false]
        omega

/-- With pairwise-distinct tags, the slot scan started at `k` maps the
`i`-th entry's tag to `k + i`. -/
theorem findSlotFrom_nodup (texs : List TEXTURE_ENTRY)
    (hnd : (texs.map TEXTURE_ENTRY.tag).Nodup) :
    ∀ (k : Nat) (i : Nat) (h : i < texs.length),
      findSlotFrom texs ((texs.get ⟨i, h⟩).tag) k = ((k : Int) + i) := by
  induction texs with
  | nil => intro k i h; exact absurd h (by simp)
  | cons e rest ih =>
    intro k i h
    rcases i with _ | j
    · simp [findSlotFrom]
    · have hne : e.tag ≠ (rest.get ⟨j, by simpa using h⟩).tag := by
        have hmem : (rest.get ⟨j, by simpa using h⟩).tag ∈ rest.map TEXTURE_ENTRY.tag := by
          exact List.mem_map_of_mem _ (rest.get_mem _ _)
        have hnotin := (List.nodup_cons.mp hnd).1
        intro he
        exact hnotin (he ▸ hmem)
      have hrec := ih (List.nodup_cons.mp hnd).2 (k + 1) j (by simpa using h)
      simp only [List.get_cons_succ, findSlotFrom, hne, if_false]
      rw [hrec]
      push_cast
      ring

/-- A non-sentinel slot value determines the tag that was looked up, hence
distinct tags cannot share a slot. -/
theorem findSlotFrom_inj (texs : List TEXTURE_ENTRY) :
    ∀ (k : Nat) (t1 t2 : String), findSlotFrom texs t1 k ≠ -1 →
      findSlotFrom texs t1 k = findSlotFrom texs t2 k → t1 = t2 := by
  induction texs with
  | nil => intro k t1 t2 h1 _; exact absurd rfl h1
  | cons e rest ih =>
    intro k t1 t2 h1 h2
    by_cases ha : e.tag = t1
    · by_cases hb : e.tag = t2
      · rw [← ha, hb]
      · exfalso
        rw [findSlotFrom, if_pos ha, findSlotFrom, if_neg hb] at h2
        rcases findSlotFrom_ge rest t2 (k + 1) with h3 | h3
        · rw [← h2] at h3; omega
        · rw [← h2] at h3; omega
    · by_cases hb : e.tag = t2
      · exfalso
        rw [findSlotFrom, if_neg ha, findSlotFrom, if_pos hb] at h2
        rw [findSlotFrom, if_neg ha] at h1
        rcases findSlotFrom_ge rest t1 (k + 1) with h3 | h3
        · exact h1 h3
        · rw [h2] at h3; omega
      · rw [findSlotFrom, if_neg ha, findSlotFrom, if_neg hb] at h2
        rw [findSlotFrom, if_neg ha] at h1
        exact ih (k + 1) t1 t2 h1 h2

/-- Iteration `i` of the bind loop started at unit `k` activates unit
`k + i` and binds the handle of the `i`-th remaining entry. -/
theorem bindLoop_get (texs : List TEXTURE_ENTRY) :
    ∀ (k i : Nat) (h : i < texs.length),
      (bindLoop k texs)[i]? = some (k + i, (texs.get ⟨i, h⟩).ID) := by
  induction texs with
  | nil => intro k i h; exact absurd h (by simp)
  | cons e rest ih =>
    intro k i h
    rcases i with _ | j
    · simp [bindLoop]
    · have := ih (k + 1) j (by simpa using h)
      simp only [bindLoop, List.getElem?_cons_succ, this, List.get_cons_succ]
      congr 2
      omega

/-- A tag that is present keeps its handle when more textures are loaded
after it. -/
theorem FindTextureID_append (texs more : List TEXTURE_ENTRY) (t : String)
    (h : FindTextureID texs t ≠ -1) :
    FindTextureID (texs ++ more) t = FindTextureID texs t := by
  induction texs with
  | nil => exact absurd rfl h
  | cons e rest ih =>
    by_cases he : e.tag = t
    · simp [FindTextureID, he]
    · rw [FindTextureID, if_neg he] at h
      simpa [FindTextureID, he] using ih h

/-- A tag with no matching entry yields the -1 sentinel from the handle
scan. -/
theorem FindTextureID_miss (texs : List TEXTURE_ENTRY) (t : String)
    (h : ∀ e ∈ texs, e.tag ≠ t) : FindTextureID texs t = -1 := by
  induction texs with
  | nil => rfl
  | cons e rest ih =>
    have he : e.tag ≠ t := h e (List.mem_cons_self e rest)
    rw [FindTextureID, if_neg he]
    exact ih (fun x hx => h x (List.mem_cons_of_mem e hx))

/-- A tag with no matching entry yields the -1 sentinel from the slot
scan, whatever the running index. -/
theorem findSlotFrom_miss (texs : List TEXTURE_ENTRY) (t : String)
    (h : ∀ e ∈ texs, e.tag ≠ t) : ∀ k, findSlotFrom texs t k = -1 := by
  induction texs with
  | nil => intro k; rfl
  | cons e rest ih =>
    intro k
    have he : e.tag ≠ t := h e (List.mem_cons_self e rest)
    rw [findSlotFrom, if_neg he]
    exact ih (fun x hx => h x (List.mem_cons_of_mem e hx)) (k + 1)

/-- C4 counterexample data: two presets sharing tag "dup"; `matA` is
defined first, `matB` last. -/
def matA : OBJECT_MATERIAL := ⟨"dup", (0.1, 0.2, 0.3), (0.4, 0.5, 0.6), 7⟩

/-- Second C4 counterexample preset (most recent write under "dup"). -/
def matB : OBJECT_MATERIAL := ⟨"dup", (0.9, 0.8, 0.7), (0.6, 0.5, 0.4), 9⟩

/-- C4: after defining `matA` and then `matB` under the same tag, `find`
returns the EARLIEST preset `matA`, not the most recent `matB` — the
claimed last-write-wins behaviour is false on the code, which scans the
list front to back and returns the first match. -/
theorem spec_C4_cex :
    FindMaterial (definePreset (definePreset [] matA) matB) "dup" ≠ some matB ∧
    FindMaterial (definePreset (definePreset [] matA) matB) "dup" = some matA := by
  constructor
  · simp only [definePreset, List.nil_append, List.cons_append, FindMaterial]
    norm_num [matA, matB]
  · simp only [definePreset, List.nil_append, List.cons_append, FindMaterial]
    norm_num [matA]

/-- C4 (amended): for every tag, after any sequence of definePreset
calls, find returns all three fields of the EARLIEST preset defined under
that tag — when two presets share a tag, the first write wins; the
round-trip holds for the first definition of each tag. -/
theorem spec_C4 (pre post : List OBJECT_MATERIAL) (m : OBJECT_MATERIAL)
    (t : String) (hm : m.tag = t) (hpre : ∀ e ∈ pre, e.tag ≠ t) :
    FindMaterial ((pre ++ m :: post).foldl definePreset []) t = some m := by
  rw [foldl_definePreset, List.nil_append]
  induction pre with
  | nil => simp [FindMaterial, hm]
  | cons e rest ih =>
    have he : e.tag ≠ t := hpre e (List.mem_cons_self e rest)
    have hrec := ih (fun x hx => hpre x (List.mem_cons_of_mem e hx))
    simpa [FindMaterial, he] using hrec

/-- C4 witness: the theorem applied to the counterexample data with an
empty prefix — the earliest "dup" preset is returned with all fields. -/
theorem spec_C4_witness :
    FindMaterial (([] ++ matA :: [matB]).foldl definePreset []) "dup" = some matA :=
  spec_C4 [] [matB] matA "dup" rfl (by simp)

/-- A concrete shader-uniform state used by the C5 and C10 evidence. -/
def sampleShader : ShaderUniforms :=
  ⟨⟨(1, 1, 1), 0, 0, 0, (0, 0, 0)⟩, false, (0, 0, 0, 1), 7, (1, 1),
    (1, 1, 1), (0, 0, 0), 8, true⟩

/-- A concrete scene-manager state with a live shader sink and empty
registries. -/
def sampleState : SMState := ⟨some sampleShader, [], []⟩

/-- C5 counterexample: requesting an unregistered texture tag does NOT
leave the previously set shader state unchanged — `SetShaderTexture`
unconditionally sets the texture-enable flag to true and pushes the -1
sentinel into the sampler slot. -/
theorem spec_C5_cex : SetShaderTexture "ghost" sampleState ≠ some sampleState := by
  simp [SetShaderTexture, sampleState, sampleShader, FindTextureSlot, findSlotFrom]

/-- C5 (amended): an undefined material tag is signalled by the not-found
result of the lookup and leaves all shader state unchanged; an
unregistered texture tag leaves the color and material uniforms unchanged
but sets the texture-enable flag to true and the sampler slot to the -1
sentinel. -/
theorem spec_C5 (st : SMState) (sh : ShaderUniforms) (t : String)
    (hsh : st.shader = some sh) :
    (FindMaterial st.materials t = none → SetShaderMaterial t st = some st) ∧
    ((∀ e ∈ st.textures, e.tag ≠ t) →
      SetShaderTexture t st =
        some { st with shader := some { sh with bUseTexture := true, objectTexture := -1 } }) := by
  constructor
  · intro hmiss
    simp [SetShaderMaterial, hmiss]
  · intro hmiss
    have hslot : FindTextureSlot st.textures t = -1 := findSlotFrom_miss _ _ hmiss 0
    simp [SetShaderTexture, hsh, hslot]

/-- C5 witness: both parts of the theorem evaluated on the concrete
sample state with a tag that exists in neither registry. -/
theorem spec_C5_witness :
    SetShaderMaterial "ghost" sampleState = some sampleState ∧
    SetShaderTexture "ghost" sampleState =
      some { sampleState with shader := some { sampleShader with bUseTexture := true, objectTexture := -1 } } := by
  have h := spec_C5 sampleState sampleShader "ghost" rfl
  exact ⟨h.1 (by decide), h.2 (by decide)⟩

/-- C6: `CreateGLTexture` fails exactly when the image cannot be decoded
or its channel count is neither 3 nor 4; on failure the texture registry
is unchanged, and on success exactly one entry mapping the tag to the
fresh handle is appended. -/
theorem spec_C6 (img : Image) (tag : String) (st : TexState) :
    CreateGLTexture none tag st = (false, st) ∧
    (img.channels ≠ 3 → img.channels ≠ 4 →
      (CreateGLTexture (some img) tag st).1 = false ∧
      (CreateGLTexture (some img) tag st).2.textureIDs = st.textureIDs) ∧
    (img.channels = 3 ∨ img.channels = 4 →
      (CreateGLTexture (some img) tag st).1 = true ∧
      (CreateGLTexture (some img) tag st).2.textureIDs
        = st.textureIDs ++ [⟨tag, st.nextTextureID⟩]) ∧
    ((CreateGLTexture (some img) tag st).1 = false ↔
      img.channels ≠ 3 ∧ img.channels ≠ 4) := by
  refine ⟨rfl, ?_, ?_, ?_⟩
  · intro h3 h4
    have h : ¬(img.channels = 3 ∨ img.channels = 4) := by tauto
    simp [CreateGLTexture, h]
  · intro h
    simp [CreateGLTexture, h]
  · by_cases h : img.channels = 3 ∨ img.channels = 4
    · simp [CreateGLTexture, h]
      tauto
    · simp [CreateGLTexture, h]
      tauto

/-- C6 witness: a decodable 64 by 64 3-channel image loads successfully
and appends exactly one entry, while a 5-channel image fails and leaves
the registry untouched. -/
theorem spec_C6_witness :
    ((CreateGLTexture (some ⟨64, 64, 3⟩) "pot" ⟨[], 0⟩).1 = true ∧
      (CreateGLTexture (some ⟨64, 64, 3⟩) "pot" ⟨[], 0⟩).2.textureIDs
        = [] ++ [⟨"pot", 0⟩]) ∧
    ((CreateGLTexture (some ⟨64, 64, 5⟩) "bad" ⟨[], 0⟩).1 = false ∧
      (CreateGLTexture (some ⟨64, 64, 5⟩) "bad" ⟨[], 0⟩).2.textureIDs = []) :=
  ⟨(spec_C6 ⟨64, 64, 3⟩ "pot" ⟨[], 0⟩).2.2.1 (Or.inl rfl),
   (spec_C6 ⟨64, 64, 5⟩ "bad" ⟨[], 0⟩).2.1 (by decide) (by decide)⟩

/-- C7: for a registry with distinct tags, `FindTextureSlot` returns the
registration-order index of each tag; non-sentinel slots of distinct tags
are always distinct; `BindGLTextures` activates entry `i` on texture unit
`i`; `FindTextureID` of a present tag is unchanged by later loads; and
both lookups return the -1 sentinel for a tag that was never registered. -/
theorem spec_C7 (texs : List TEXTURE_ENTRY) :
    ((texs.map TEXTURE_ENTRY.tag).Nodup →
      ∀ (i : Nat) (h : i < texs.length),
        FindTextureSlot texs ((texs.get ⟨i, h⟩).tag) = (i : Int)) ∧
    (∀ t1 t2, FindTextureSlot texs t1 ≠ -1 →
      FindTextureSlot texs t1 = FindTextureSlot texs t2 → t1 = t2) ∧
    (∀ (i : Nat) (h : i < texs.length),
      (BindGLTextures texs)[i]? = some (i, (texs.get ⟨i, h⟩).ID)) ∧
    (∀ t more, FindTextureID texs t ≠ -1 →
      FindTextureID (texs ++ more) t = FindTextureID texs t) ∧
    (∀ t, (∀ e ∈ texs, e.tag ≠ t) →
      FindTextureID texs t = -1 ∧ FindTextureSlot texs t = -1) := by
  refine ⟨?_, ?_, ?_, ?_, ?_⟩
  · intro hnd i h
    simpa using findSlotFrom_nodup texs hnd 0 i h
  · intro t1 t2 h1 h2
    exact findSlotFrom_inj texs 0 t1 t2 h1 h2
  · intro i h
    simpa using bindLoop_get texs 0 i h
  · intro t more h
    exact FindTextureID_append texs more t h
  · intro t h
    exact ⟨FindTextureID_miss texs t h, findSlotFrom_miss texs t h 0⟩

/-- C7 witness: the theorem applied to a concrete two-entry registry —
slots follow registration order, binding pairs each unit with its handle,
the handle of "pot" survives a later load, and an unknown tag yields -1
from both lookups. -/
theorem spec_C7_witness :
    FindTextureSlot [⟨"pot", 7⟩, ⟨"wood", 9⟩] "wood" = 1 ∧
    (BindGLTextures [⟨"pot", 7⟩, ⟨"wood", 9⟩])[1]? = some (1, 9) ∧
    FindTextureID ([⟨"pot", 7⟩] ++ [⟨"wood", 9⟩]) "pot" = FindTextureID [⟨"pot", 7⟩] "pot" ∧
    FindTextureID [⟨"pot", 7⟩, ⟨"wood", 9⟩] "ghost" = -1 := by
  have h := spec_C7 [⟨"pot", 7⟩, ⟨"wood", 9⟩]
  refine ⟨?_, ?_, ?_, ?_⟩
  · simpa using h.1 (by decide) 1 (by norm_num)
  · simpa using h.2.2.1 1 (by norm_num)
  · exact (spec_C7 [⟨"pot", 7⟩]).2.2.2.1 "pot" [⟨"wood", 9⟩] (by decide)
  · exact (h.2.2.2.2 "ghost" (by decide)).1

/-- A scene-manager state with a null shader pointer and a non-empty
material table, used as the C10 witness input. -/
def nullShaderState : SMState :=
  ⟨none, [⟨"bark", (0.30, 0.24, 0.18), (0.05, 0.04, 0.03), 2⟩], []⟩

/-- C10: with a null shader-manager pointer, the guarded setters
(`SetTransformations`, `SetShaderColor`, `SetShaderTexture`,
`SetTextureUVScale`) perform no writes and return normally, while
`SetShaderMaterial` on a tag present in the table and `SetupSceneLights`
dereference the null pointer unconditionally (modelled as `none`). -/
theorem spec_C10 (st : SMState) (hnull : st.shader = none) :
    (∀ sc rx ry rz p, SetTransformations sc rx ry rz p st = some st) ∧
    (∀ r g b a, SetShaderColor r g b a st = some st) ∧
    (∀ t, SetShaderTexture t st = some st) ∧
    (∀ u v, SetTextureUVScale u v st = some st) ∧
    (∀ t m, FindMaterial st.materials t = some m → SetShaderMaterial t st = none) ∧
    SetupSceneLights st = none := by
  refine ⟨?_, ?_, ?_, ?_, ?_, ?_⟩
  · intro sc rx ry rz p; simp [SetTransformations, hnull]
  · intro r g b a; simp [SetShaderColor, hnull]
  · intro t; simp [SetShaderTexture, hnull]
  · intro u v; simp [SetTextureUVScale, hnull]
  · intro t m hm; simp [SetShaderMaterial, hm, hnull]
  · simp [SetupSceneLights, hnull]

/-- C10 witness: on the concrete null-shader state, the four guarded
setters are no-ops while the unguarded material push and light setup
crash. -/
theorem spec_C10_witness :
    SetTransformations (1, 1, 1) 0 0 0 (2, 3, 4) nullShaderState = some nullShaderState ∧
    SetShaderColor 0.5 0.5 0.5 1 nullShaderState = some nullShaderState ∧
    SetShaderTexture "pot" nullShaderState = some nullShaderState ∧
    SetTextureUVScale 2 2 nullShaderState = some nullShaderState ∧
    SetShaderMaterial "bark" nullShaderState = none ∧
    SetupSceneLights nullShaderState = none := by
  have h := spec_C10 nullShaderState rfl
  exact ⟨h.1 (1, 1, 1) 0 0 0 (2, 3, 4), h.2.1 0.5 0.5 0.5 1, h.2.2.1 "pot",
    h.2.2.2.1 2 2,
    h.2.2.2.2.1 "bark" ⟨"bark", (0.30, 0.24, 0.18), (0.05, 0.04, 0.03), 2⟩
      (by simp [nullShaderState, FindMaterial]),
    h.2.2.2.2.2⟩

/-- C8: whatever the prior culling-enable state, a full `RenderScene`
pass leaves the flag exactly as it was before the pass, and culling is
disabled while the draw script runs. -/
theorem spec_C8 (b : Bool) :
    (RenderScene b).cullAfter = b ∧ (RenderScene b).cullDuringPass = false := by
  cases b <;> simp [RenderScene]

/-- All three components of a color triple lie in the unit interval. -/
def unitChannels3 (v : V3) : Prop :=
  (0 ≤ v.1 ∧ v.1 ≤ 1) ∧ (0 ≤ v.2.1 ∧ v.2.1 ≤ 1) ∧ (0 ≤ v.2.2 ∧ v.2.2 ≤ 1)

instance (v : V3) : Decidable (unitChannels3 v) := by
  unfold unitChannels3; infer_instance

/-- A draw-script operation pushes only in-range color channels. -/
def opColorOK : RenderOp → Prop
  | .setColor r g b a =>
      (0 ≤ r ∧ r ≤ 1) ∧ (0 ≤ g ∧ g ≤ 1) ∧ (0 ≤ b ∧ b ≤ 1) ∧ (0 ≤ a ∧ a ≤ 1)
  | _ => True

instance (op : RenderOp) : Decidable (opColorOK op) := by
  cases op <;> simp only [opColorOK] <;> infer_instance

/-- A draw-script operation passes only strictly positive scale vectors. -/
def opScaleOK : RenderOp → Prop
  | .setTransform s _ _ _ _ => 0 < s.1 ∧ 0 < s.2.1 ∧ 0 < s.2.2
  | _ => True

instance (op : RenderOp) : Decidable (opScaleOK op) := by
  cases op <;> simp only [opScaleOK] <;> infer_instance

set_option maxRecDepth 100000 in
/-- C9: every color channel pushed by any operation — every material
preset's diffuse and specular components and every flat color set before
a draw in `RenderScene` — lies in the unit interval, and every scale
vector passed to `SetTransformations` in `RenderScene` is strictly
positive in all three components. -/
theorem spec_C9 :
    (∀ m ∈ DefineObjectMaterials,
      unitChannels3 m.diffuseColor ∧ unitChannels3 m.specularColor) ∧
    (∀ op ∈ renderSceneOps, opColorOK op) ∧
    (∀ op ∈ renderSceneOps, opScaleOK op) :=
  of_decide_eq_true (by with_unfolding_all rfl)

/-! Real-valued model of the transform builder and of the trigonometric
branch-tip rule.  The source computes these with glm in single-precision
floats; the embedding uses exact reals, and every numeric comparison the
claims need is settled within explicit tolerances. -/

/-- `glm::radians`: degrees to radians. -/
noncomputable def radians (d : ℝ) : ℝ := d * Real.pi / 180

/-- `glm::translate(t)` as a 4 by 4 matrix. -/
noncomputable def translateM (t : ℝ × ℝ × ℝ) : Matrix (Fin 4) (Fin 4) ℝ :=
  !![1, 0, 0, t.1; 0, 1, 0, t.2.1; 0, 0, 1, t.2.2; 0, 0, 0, 1]

/-- `glm::rotate(a, vec3(0,0,1))`: rotation about the Z axis. -/
noncomputable def rotateZM (a : ℝ) : Matrix (Fin 4) (Fin 4) ℝ :=
  !![Real.cos a, -Real.sin a, 0, 0;
     Real.sin a, Real.cos a, 0, 0;
     0, 0, 1, 0;
     0, 0, 0, 1]

/-- `glm::rotate(a, vec3(0,1,0))`: rotation about the Y axis. -/
noncomputable def rotateYM (a : ℝ) : Matrix (Fin 4) (Fin 4) ℝ :=
  !![Real.cos a, 0, Real.sin a, 0;
     0, 1, 0, 0;
     -Real.sin a, 0, Real.cos a, 0;
     0, 0, 0, 1]

/-- `glm::rotate(a, vec3(1,0,0))`: rotation about the X axis. -/
noncomputable def rotateXM (a : ℝ) : Matrix (Fin 4) (Fin 4) ℝ :=
  !![1, 0, 0, 0;
     0, Real.cos a, -Real.sin a, 0;
     0, Real.sin a, Real.cos a, 0;
     0, 0, 0, 1]

/-- `glm::scale(s)` as a 4 by 4 matrix. -/
noncomputable def scaleM (s : ℝ × ℝ × ℝ) : Matrix (Fin 4) (Fin 4) ℝ :=
  !![s.1, 0, 0, 0; 0, s.2.1, 0, 0; 0, 0, s.2.2, 0; 0, 0, 0, 1]

/-- The model matrix built by `SceneManager::SetTransformations`
(lines 212-217): `glm::translate(positionXYZ) * glm::rotate(radians(Z),
z-axis) * glm::rotate(radians(Y), y-axis) * glm::rotate(radians(X),
x-axis) * glm::scale(scaleXYZ)`. -/
noncomputable def buildModelView (sc : ℝ × ℝ × ℝ) (xr yr zr : ℝ)
    (p : ℝ × ℝ × ℝ) : Matrix (Fin 4) (Fin 4) ℝ :=
  translateM p * rotateZM (radians zr) * rotateYM (radians yr) *
    rotateXM (radians xr) * scaleM sc

/-- The trunk and branch tip rule documented at line 905 of the source
("Tip formula: tip = base + h times (-sin Z, cos Z)"): a segment of
length `h` rooted at `base` and rotated by `ang` degrees about Z ends at
this point of the XY plane (the Z depth is fixed). -/
noncomputable def tipZ (base : ℝ × ℝ) (h ang : ℝ) : ℝ × ℝ :=
  (base.1 + h * (-Real.sin (radians ang)), base.2 + h * Real.cos (radians ang))

/-- Coercion of a rational point of the scene script into the real
plane. -/
noncomputable def toR2 (p : ℚ × ℚ) : ℝ × ℝ := ((p.1 : ℝ), (p.2 : ℝ))

/-- C3: `SetTransformations` composes the model matrix as T times Rz
times Ry times Rx times S (scale applied first, translation last); the
neutral arguments produce the identity matrix, and a +90 degree Z
rotation with unit scale and zero translation maps the point (1,0,0) to
(0,1,0). -/
theorem spec_C3 :
    (∀ (sc p : ℝ × ℝ × ℝ) (xr yr zr : ℝ),
      buildModelView sc xr yr zr p =
        translateM p * rotateZM (radians zr) * rotateYM (radians yr) *
          rotateXM (radians xr) * scaleM sc) ∧
    buildModelView (1, 1, 1) 0 0 0 (0, 0, 0) = 1 ∧
    (buildModelView (1, 1, 1) 0 0 90 (0, 0, 0)).mulVec ![1, 0, 0, 1] =
      ![0, 1, 0, 1] := by
  have hr0 : radians 0 = 0 := by simp [radians]
  have hT : translateM (0, 0, 0) = 1 := by
    ext i j
    fin_cases i <;> fin_cases j <;>
      simp [translateM, Matrix.one_apply, Matrix.vecHead, Matrix.vecTail]
  have hS : scaleM (1, 1, 1) = 1 := by
    ext i j
    fin_cases i <;> fin_cases j <;>
      simp [scaleM, Matrix.one_apply, Matrix.vecHead, Matrix.vecTail]
  have hZ : rotateZM 0 = 1 := by
    ext i j
    fin_cases i <;> fin_cases j <;>
      simp [rotateZM, Matrix.one_apply, Matrix.vecHead, Matrix.vecTail]
  have hY : rotateYM 0 = 1 := by
    ext i j
    fin_cases i <;> fin_cases j <;>
      simp [rotateYM, Matrix.one_apply, Matrix.vecHead, Matrix.vecTail]
  have hX : rotateXM 0 = 1 := by
    ext i j
    fin_cases i <;> fin_cases j <;>
      simp [rotateXM, Matrix.one_apply, Matrix.vecHead, Matrix.vecTail]
  refine ⟨fun sc p xr yr zr => rfl, ?_, ?_⟩
  · rw [buildModelView, hr0, hT, hS, hZ, hY, hX]
    simp
  · have h90 : radians 90 = Real.pi / 2 := by rw [radians]; ring
    rw [buildModelView, hr0, hT, hS, hY, hX, h90]
    simp only [Matrix.one_mul, Matrix.mul_one]
    funext i
    fin_cases i <;>
      simp [rotateZM, Matrix.mulVec, Matrix.dotProduct, Fin.sum_univ_four,
        Real.cos_pi_div_two, Real.sin_pi_div_two]

/-! Numeric interval bounds on sin and cos at the angles the tree uses,
derived from the degree-3 Taylor bounds of Mathlib and the addition
formulas. -/

/-- Interval bound for sin on a small nonnegative argument interval via
the Taylor estimate. -/
theorem sin_interval {x a b lo hi : ℝ} (hax : a ≤ x) (hxb : x ≤ b)
    (ha0 : 0 ≤ a) (hb1 : b ≤ 1)
    (hlo : lo ≤ a - b ^ 3 / 6 - b ^ 4 * (5 / 96))
    (hhi : b - a ^ 3 / 6 + b ^ 4 * (5 / 96) ≤ hi) :
    lo ≤ Real.sin x ∧ Real.sin x ≤ hi := by
  have hx0 : 0 ≤ x := ha0.trans hax
  have habs : |x| ≤ 1 := by
    rw [abs_of_nonneg hx0]; exact hxb.trans hb1
  have hsb := Real.sin_bound habs
  rw [abs_of_nonneg hx0, abs_le] at hsb
  have h3 : x ^ 3 ≤ b ^ 3 := pow_le_pow_left₀ hx0 hxb 3
  have h3a : a ^ 3 ≤ x ^ 3 := pow_le_pow_left₀ ha0 hax 3
  have h4 : x ^ 4 ≤ b ^ 4 := pow_le_pow_left₀ hx0 hxb 4
  constructor
  · linarith [hsb.1]
  · linarith [hsb.2]

/-- Interval bound for cos on a small nonnegative argument interval via
the Taylor estimate. -/
theorem cos_interval {x a b lo hi : ℝ} (hax : a ≤ x) (hxb : x ≤ b)
    (ha0 : 0 ≤ a) (hb1 : b ≤ 1)
    (hlo : lo ≤ 1 - b ^ 2 / 2 - b ^ 4 * (5 / 96))
    (hhi : 1 - a ^ 2 / 2 + b ^ 4 * (5 / 96) ≤ hi) :
    lo ≤ Real.cos x ∧ Real.cos x ≤ hi := by
  have hx0 : 0 ≤ x := ha0.trans hax
  have habs : |x| ≤ 1 := by
    rw [abs_of_nonneg hx0]; exact hxb.trans hb1
  have hcb := Real.cos_bound habs
  rw [abs_of_nonneg hx0, abs_le] at hcb
  have h2 : x ^ 2 ≤ b ^ 2 := pow_le_pow_left₀ hx0 hxb 2
  have h2a : a ^ 2 ≤ x ^ 2 := pow_le_pow_left₀ ha0 hax 2
  have h4 : x ^ 4 ≤ b ^ 4 := pow_le_pow_left₀ hx0 hxb 4
  constructor
  · linarith [hcb.1]
  · linarith [hcb.2]

/-- Rational interval around `radians d` from the six-decimal bounds on
pi. -/
theorem radians_interval {d a b : ℝ} (hd : 0 ≤ d)
    (ha : a ≤ d * 3.141592 / 180) (hb : d * 3.141593 / 180 ≤ b) :
    a ≤ radians d ∧ radians d ≤ b := by
  unfold radians
  have h1 := Real.pi_gt_d6
  have h2 := Real.pi_lt_d6
  constructor <;> nlinarith

/-- Numeric bounds on sin of 5 degrees. -/
theorem sin5_bounds :
    (0.08715 : ℝ) ≤ Real.sin (radians 5) ∧ Real.sin (radians 5) ≤ 0.08716 := by
  have hr : (0.0872664 : ℝ) ≤ radians 5 ∧ radians 5 ≤ 0.0872665 :=
    radians_interval (by norm_num) (by norm_num) (by norm_num)
  exact sin_interval hr.1 hr.2 (by norm_num) (by norm_num) (by norm_num) (by norm_num)

/-- Numeric bounds on cos of 5 degrees. -/
theorem cos5_bounds :
    (0.99618 : ℝ) ≤ Real.cos (radians 5) ∧ Real.cos (radians 5) ≤ 0.99620 := by
  have hr : (0.0872664 : ℝ) ≤ radians 5 ∧ radians 5 ≤ 0.0872665 :=
    radians_interval (by norm_num) (by norm_num) (by norm_num)
  exact cos_interval hr.1 hr.2 (by norm_num) (by norm_num) (by norm_num) (by norm_num)

/-- Numeric bounds on sin of 8 degrees. -/
theorem sin8_bounds :
    (0.13915 : ℝ) ≤ Real.sin (radians 8) ∧ Real.sin (radians 8) ≤ 0.13920 := by
  have hr : (0.1396263 : ℝ) ≤ radians 8 ∧ radians 8 ≤ 0.1396264 :=
    radians_interval (by norm_num) (by norm_num) (by norm_num)
  exact sin_interval hr.1 hr.2 (by norm_num) (by norm_num) (by norm_num) (by norm_num)

/-- Numeric bounds on cos of 8 degrees. -/
theorem cos8_bounds :
    (0.99023 : ℝ) ≤ Real.cos (radians 8) ∧ Real.cos (radians 8) ≤ 0.99028 := by
  have hr : (0.1396263 : ℝ) ≤ radians 8 ∧ radians 8 ≤ 0.1396264 :=
    radians_interval (by norm_num) (by norm_num) (by norm_num)
  exact cos_interval hr.1 hr.2 (by norm_num) (by norm_num) (by norm_num) (by norm_num)

/-- Numeric bounds on sin of 10 degrees. -/
theorem sin10_bounds :
    (0.17359 : ℝ) ≤ Real.sin (radians 10) ∧ Real.sin (radians 10) ≤ 0.17370 := by
  have hr : (0.1745328 : ℝ) ≤ radians 10 ∧ radians 10 ≤ 0.1745330 :=
    radians_interval (by norm_num) (by norm_num) (by norm_num)
  exact sin_interval hr.1 hr.2 (by norm_num) (by norm_num) (by norm_num) (by norm_num)

/-- Numeric bounds on cos of 10 degrees. -/
theorem cos10_bounds :
    (0.98472 : ℝ) ≤ Real.cos (radians 10) ∧ Real.cos (radians 10) ≤ 0.98482 := by
  have hr : (0.1745328 : ℝ) ≤ radians 10 ∧ radians 10 ≤ 0.1745330 :=
    radians_interval (by norm_num) (by norm_num) (by norm_num)
  exact cos_interval hr.1 hr.2 (by norm_num) (by norm_num) (by norm_num) (by norm_num)

/-- Numeric bounds on sin of 15 degrees. -/
theorem sin15_bounds :
    (0.25856 : ℝ) ≤ Real.sin (radians 15) ∧ Real.sin (radians 15) ≤ 0.25906 := by
  have hr : (0.2617993 : ℝ) ≤ radians 15 ∧ radians 15 ≤ 0.2617995 :=
    radians_interval (by norm_num) (by norm_num) (by norm_num)
  exact sin_interval hr.1 hr.2 (by norm_num) (by norm_num) (by norm_num) (by norm_num)

/-- Numeric bounds on cos of 15 degrees. -/
theorem cos15_bounds :
    (0.96548 : ℝ) ≤ Real.cos (radians 15) ∧ Real.cos (radians 15) ≤ 0.96598 := by
  have hr : (0.2617993 : ℝ) ≤ radians 15 ∧ radians 15 ≤ 0.2617995 :=
    radians_interval (by norm_num) (by norm_num) (by norm_num)
  exact cos_interval hr.1 hr.2 (by norm_num) (by norm_num) (by norm_num) (by norm_num)

/-- Numeric bounds on the square root of three. -/
theorem sqrt3_bounds :
    (1.732050 : ℝ) ≤ Real.sqrt 3 ∧ Real.sqrt 3 ≤ 1.732051 := by
  constructor
  · exact ((Real.lt_sqrt (by norm_num)).mpr (by norm_num)).le
  · exact ((Real.sqrt_lt' (by norm_num)).mpr (by norm_num)).le

/-- Numeric bounds on sin of 20 degrees, via 20 = 30 - 10. -/
theorem sin20_bounds :
    (0.34191 : ℝ) ≤ Real.sin (radians 20) ∧ Real.sin (radians 20) ≤ 0.34209 := by
  have he : radians 20 = Real.pi / 6 - radians 10 := by unfold radians; ring
  have hs := sin10_bounds
  have hc := cos10_bounds
  have h3 := sqrt3_bounds
  rw [he, Real.sin_sub, Real.sin_pi_div_six, Real.cos_pi_div_six]
  constructor <;> nlinarith [hs.1, hs.2, hc.1, hc.2, h3.1, h3.2]

/-- Numeric bounds on cos of 20 degrees, via 20 = 30 - 10. -/
theorem cos20_bounds :
    (0.93955 : ℝ) ≤ Real.cos (radians 20) ∧ Real.cos (radians 20) ≤ 0.93975 := by
  have he : radians 20 = Real.pi / 6 - radians 10 := by unfold radians; ring
  have hs := sin10_bounds
  have hc := cos10_bounds
  have h3 := sqrt3_bounds
  rw [he, Real.cos_sub, Real.sin_pi_div_six, Real.cos_pi_div_six]
  constructor <;> nlinarith [hs.1, hs.2, hc.1, hc.2, h3.1, h3.2]

/-- Numeric bounds on sin of 35 degrees, via 35 = 30 + 5. -/
theorem sin35_bounds :
    (0.57355 : ℝ) ≤ Real.sin (radians 35) ∧ Real.sin (radians 35) ≤ 0.57360 := by
  have he : radians 35 = Real.pi / 6 + radians 5 := by unfold radians; ring
  have hs := sin5_bounds
  have hc := cos5_bounds
  have h3 := sqrt3_bounds
  rw [he, Real.sin_add, Real.sin_pi_div_six, Real.cos_pi_div_six]
  constructor <;> nlinarith [hs.1, hs.2, hc.1, hc.2, h3.1, h3.2]

/-- Numeric bounds on cos of 35 degrees, via 35 = 30 + 5. -/
theorem cos35_bounds :
    (0.81912 : ℝ) ≤ Real.cos (radians 35) ∧ Real.cos (radians 35) ≤ 0.81917 := by
  have he : radians 35 = Real.pi / 6 + radians 5 := by unfold radians; ring
  have hs := sin5_bounds
  have hc := cos5_bounds
  have h3 := sqrt3_bounds
  rw [he, Real.cos_add, Real.sin_pi_div_six, Real.cos_pi_div_six]
  constructor <;> nlinarith [hs.1, hs.2, hc.1, hc.2, h3.1, h3.2]

/-- Numeric bounds on sin of 40 degrees, via 40 = 30 + 10. -/
theorem sin40_bounds :
    (0.64267 : ℝ) ≤ Real.sin (radians 40) ∧ Real.sin (radians 40) ≤ 0.64286 := by
  have he : radians 40 = Real.pi / 6 + radians 10 := by unfold radians; ring
  have hs := sin10_bounds
  have hc := cos10_bounds
  have h3 := sqrt3_bounds
  rw [he, Real.sin_add, Real.sin_pi_div_six, Real.cos_pi_div_six]
  constructor <;> nlinarith [hs.1, hs.2, hc.1, hc.2, h3.1, h3.2]

/-- Numeric bounds on cos of 40 degrees, via 40 = 30 + 10. -/
theorem cos40_bounds :
    (0.76592 : ℝ) ≤ Real.cos (radians 40) ∧ Real.cos (radians 40) ≤ 0.76610 := by
  have he : radians 40 = Real.pi / 6 + radians 10 := by unfold radians; ring
  have hs := sin10_bounds
  have hc := cos10_bounds
  have h3 := sqrt3_bounds
  rw [he, Real.cos_add, Real.sin_pi_div_six, Real.cos_pi_div_six]
  constructor <;> nlinarith [hs.1, hs.2, hc.1, hc.2, h3.1, h3.2]

/-- Sin and cos of 55 degrees are cos and sin of 35 degrees. -/
theorem trig55 :
    Real.sin (radians 55) = Real.cos (radians 35) ∧
    Real.cos (radians 55) = Real.sin (radians 35) := by
  have he : radians 55 = Real.pi / 2 - radians 35 := by unfold radians; ring
  rw [he, Real.sin_pi_div_two_sub, Real.cos_pi_div_two_sub]
  exact ⟨rfl, rfl⟩

/-- Sin and cos of 50 degrees are cos and sin of 40 degrees. -/
theorem trig50 :
    Real.sin (radians 50) = Real.cos (radians 40) ∧
    Real.cos (radians 50) = Real.sin (radians 40) := by
  have he : radians 50 = Real.pi / 2 - radians 40 := by unfold radians; ring
  rw [he, Real.sin_pi_div_two_sub, Real.cos_pi_div_two_sub]
  exact ⟨rfl, rfl⟩

/-- Sin and cos at a negated angle. -/
theorem radians_neg (d : ℝ) :
    Real.sin (radians (-d)) = -Real.sin (radians d) ∧
    Real.cos (radians (-d)) = Real.cos (radians d) := by
  have he : radians (-d) = -radians d := by unfold radians; ring
  rw [he, Real.sin_neg, Real.cos_neg]
  exact ⟨rfl, rfl⟩

/-! Evaluation of the hardcoded scene points as real literals. -/

theorem potRimJoint_eval : toR2 Scene.potRimJoint = ((0 : ℝ), (4.85 : ℝ)) := by
  unfold toR2 Scene.potRimJoint Scene.potCenterX Scene.potTopY Scene.potBaseY
    Scene.upperTableY Scene.topThickness Scene.baseH Scene.upperH
  norm_num

theorem trunkJoint1_eval : toR2 Scene.trunkJoint1 = ((0.15 : ℝ), (5.27 : ℝ)) := by
  unfold toR2 Scene.trunkJoint1 Scene.potCenterX Scene.potTopY Scene.potBaseY
    Scene.upperTableY Scene.topThickness Scene.baseH Scene.upperH
  norm_num

theorem trunkJoint2_eval : toR2 Scene.trunkJoint2 = ((0.34 : ℝ), (5.99 : ℝ)) := by
  unfold toR2 Scene.trunkJoint2 Scene.potCenterX Scene.potTopY Scene.potBaseY
    Scene.upperTableY Scene.topThickness Scene.baseH Scene.upperH
  norm_num

theorem trunkJoint3_eval : toR2 Scene.trunkJoint3 = ((0.24 : ℝ), (6.73 : ℝ)) := by
  unfold toR2 Scene.trunkJoint3 Scene.potCenterX Scene.potTopY Scene.potBaseY
    Scene.upperTableY Scene.topThickness Scene.baseH Scene.upperH
  norm_num

theorem leftClusterAnchor_eval :
    toR2 Scene.leftClusterAnchor = ((-1 : ℝ), (6.07 : ℝ)) := by
  unfold toR2 Scene.leftClusterAnchor Scene.potCenterX Scene.potTopY Scene.potBaseY
    Scene.upperTableY Scene.topThickness Scene.baseH Scene.upperH
  norm_num

theorem rightClusterAnchor_eval :
    toR2 Scene.rightClusterAnchor = ((1.26 : ℝ), (6.76 : ℝ)) := by
  unfold toR2 Scene.rightClusterAnchor Scene.potCenterX Scene.potTopY Scene.potBaseY
    Scene.upperTableY Scene.topThickness Scene.baseH Scene.upperH
  norm_num

/-- C1 counterexample: chaining segment 1 (length 0.45, angle -20) and
segment 2 (length 0.75, angle -15) exactly from the pot-rim anchor does
NOT land within 1e-3 of the hardcoded joint s2 — the x coordinate alone
is off by about 8e-3, because the hardcoded joints are rounded to two
decimals at every step. -/
theorem spec_C1_cex :
    ¬(|(tipZ (tipZ (toR2 Scene.potRimJoint) 0.45 (-20)) 0.75 (-15)).1 -
        (toR2 Scene.trunkJoint2).1| ≤ 1 / 1000 ∧
      |(tipZ (tipZ (toR2 Scene.potRimJoint) 0.45 (-20)) 0.75 (-15)).2 -
        (toR2 Scene.trunkJoint2).2| ≤ 1 / 1000) := by
  intro hcl
  obtain ⟨h1, -⟩ := hcl
  rw [potRimJoint_eval, trunkJoint2_eval] at h1
  simp only [tipZ, (radians_neg 20).1, (radians_neg 15).1] at h1
  rw [abs_le] at h1
  have hs20 := sin20_bounds
  have hs15 := sin15_bounds
  linarith [h1.2, hs20.1, hs15.1]

set_option maxHeartbeats 2000000 in
/-- C1 (amended): the derived first joint matches the documented offset
(0.154, 0.423) within 1e-3; chaining segment 2 from the derived first
joint lands within 1e-2 (not 1e-3) of the hardcoded joint s2; and each
joint hardcoded in the rendering sequence equals the trigonometric rule
applied to the previously hardcoded joint within 5e-3 (the values are
rounded to two decimals at each step). -/
theorem spec_C1 :
    (|(tipZ (toR2 Scene.potRimJoint) 0.45 (-20)).1 - (toR2 Scene.potRimJoint).1 -
        0.154| ≤ 1 / 1000 ∧
     |(tipZ (toR2 Scene.potRimJoint) 0.45 (-20)).2 - (toR2 Scene.potRimJoint).2 -
        0.423| ≤ 1 / 1000) ∧
    (|(tipZ (tipZ (toR2 Scene.potRimJoint) 0.45 (-20)) 0.75 (-15)).1 -
        (toR2 Scene.trunkJoint2).1| ≤ 1 / 100 ∧
     |(tipZ (tipZ (toR2 Scene.potRimJoint) 0.45 (-20)) 0.75 (-15)).2 -
        (toR2 Scene.trunkJoint2).2| ≤ 1 / 100) ∧
    (|(tipZ (toR2 Scene.potRimJoint) 0.45 (-20)).1 - (toR2 Scene.trunkJoint1).1| ≤ 1 / 200 ∧
     |(tipZ (toR2 Scene.potRimJoint) 0.45 (-20)).2 - (toR2 Scene.trunkJoint1).2| ≤ 1 / 200) ∧
    (|(tipZ (toR2 Scene.trunkJoint1) 0.75 (-15)).1 - (toR2 Scene.trunkJoint2).1| ≤ 1 / 200 ∧
     |(tipZ (toR2 Scene.trunkJoint1) 0.75 (-15)).2 - (toR2 Scene.trunkJoint2).2| ≤ 1 / 200) ∧
    (|(tipZ (toR2 Scene.trunkJoint2) 0.75 8).1 - (toR2 Scene.trunkJoint3).1| ≤ 1 / 200 ∧
     |(tipZ (toR2 Scene.trunkJoint2) 0.75 8).2 - (toR2 Scene.trunkJoint3).2| ≤ 1 / 200) := by
  have hs20 := sin20_bounds
  have hc20 := cos20_bounds
  have hs15 := sin15_bounds
  have hc15 := cos15_bounds
  have hs8 := sin8_bounds
  have hc8 := cos8_bounds
  rw [potRimJoint_eval, trunkJoint1_eval, trunkJoint2_eval, trunkJoint3_eval]
  simp only [tipZ, (radians_neg 20).1, (radians_neg 20).2, (radians_neg 15).1,
    (radians_neg 15).2]
  refine ⟨⟨?_, ?_⟩, ⟨?_, ?_⟩, ⟨?_, ?_⟩, ⟨?_, ?_⟩, ⟨?_, ?_⟩⟩ <;>
    · rw [abs_le]
      constructor <;> linarith [hs20.1, hs20.2, hc20.1, hc20.2, hs15.1, hs15.2,
        hc15.1, hc15.2, hs8.1, hs8.2, hc8.1, hc8.2]

/-- C2 counterexample: the claim roots the left branch at the second
trunk joint s2; the tip derived from s2 with angle +55 and length 1.4
has a y coordinate above potTopY + 1.99, while the left leaf-cluster
anchor sits at potTopY + 1.27 — they are not equal.  (The code roots the
left branch at the FIRST joint s1; see the amended theorem.) -/
theorem spec_C2_cex :
    (tipZ (toR2 Scene.trunkJoint2) 1.4 55).2 ≠ (toR2 Scene.leftClusterAnchor).2 := by
  intro h
  rw [trunkJoint2_eval, leftClusterAnchor_eval] at h
  simp only [tipZ, trig55.2] at h
  have hs35 := sin35_bounds
  linarith [hs35.1]

/-- C2 (amended): the left branch exits the FIRST trunk joint (0.15,
0.47 above the pot rim) with angle +55 and length 1.4, the right branch
exits the SECOND trunk joint with angle -50 and length 1.2; each tip
derived by tip = origin + length times (-sin, cos) matches the
corresponding 7-sphere leaf-cluster anchor within 5e-3 (the anchors are
the derived tips rounded to two decimals). -/
theorem spec_C2 :
    Scene.leftBranchOrigin = Scene.trunkJoint1 ∧
    Scene.rightBranchOrigin = Scene.trunkJoint2 ∧
    (|(tipZ (toR2 Scene.leftBranchOrigin) 1.4 55).1 -
        (toR2 Scene.leftClusterAnchor).1| ≤ 1 / 200 ∧
     |(tipZ (toR2 Scene.leftBranchOrigin) 1.4 55).2 -
        (toR2 Scene.leftClusterAnchor).2| ≤ 1 / 200) ∧
    (|(tipZ (toR2 Scene.rightBranchOrigin) 1.2 (-50)).1 -
        (toR2 Scene.rightClusterAnchor).1| ≤ 1 / 200 ∧
     |(tipZ (toR2 Scene.rightBranchOrigin) 1.2 (-50)).2 -
        (toR2 Scene.rightClusterAnchor).2| ≤ 1 / 200) := by
  have hs35 := sin35_bounds
  have hc35 := cos35_bounds
  have hs40 := sin40_bounds
  have hc40 := cos40_bounds
  refine ⟨rfl, rfl, ?_, ?_⟩
  · rw [show toR2 Scene.leftBranchOrigin = ((0.15 : ℝ), (5.27 : ℝ)) from trunkJoint1_eval,
      leftClusterAnchor_eval]
    simp only [tipZ, trig55.1, trig55.2]
    constructor <;>
      · rw [abs_le]
        constructor <;> linarith [hs35.1, hs35.2, hc35.1, hc35.2]
  · rw [show toR2 Scene.rightBranchOrigin = ((0.34 : ℝ), (5.99 : ℝ)) from trunkJoint2_eval,
      rightClusterAnchor_eval]
    simp only [tipZ, (radians_neg 50).1, (radians_neg 50).2, trig50.1, trig50.2]
    constructor <;>
      · rw [abs_le]
        constructor <;> linarith [hs40.1, hs40.2, hc40.1, hc40.2]

end SceneMgr
